import Mathlib

/-!
Verification development for the stream controller of stremio-ncore-addon
(src/server/src/controllers/stream.controller.ts).

The TypeScript controller is shallowly embedded: pure string construction is
translated to Lean functions over String and List Char, the filesystem side
effects of the HLS session are translated to explicit state passing over a
FileSystem record, and the readiness-gate polling loops are translated to
fuel-indexed search over a time-indexed trace of filesystem states.
-/

namespace StreamCtrl

/-! ### JavaScript string primitives, modelled over List Char -/

/-- Models the prefix test used by JavaScript String.prototype.startsWith,
on the character lists of the two strings. -/
def charListStartsWith : List Char → List Char → Bool
  | [], _ => true
  | _ :: _, [] => false
  | p :: ps, c :: cs => p = c && charListStartsWith ps cs

/-- Models JavaScript String.prototype.includes: the pattern occurs as a
contiguous run somewhere in the subject. -/
def charListIncludes (pat : List Char) : List Char → Bool
  | [] => charListStartsWith pat []
  | c :: cs => charListStartsWith pat (c :: cs) || charListIncludes pat cs

/-- Decimal digit character for a value below ten. -/
def digitToChar (d : Nat) : Char :=
  Char.ofNat (48 + d)

/-- Fuel-indexed decimal digit accumulation, most significant digit first.
The fuel argument only bounds the recursion; fuel n+1 is always enough for n. -/
def natToDigits : Nat → Nat → List Char → List Char
  | 0, _, acc => acc
  | fuel + 1, n, acc =>
    if n < 10 then digitToChar n :: acc
    else natToDigits fuel (n / 10) (digitToChar (n % 10) :: acc)

/-- Models the JavaScript number-to-string conversion used by template
interpolation and Number.prototype.toString for the natural numbers that
occur in the controller (segment indices, track indices, byte counts). -/
def jsNatToString (n : Nat) : String :=
  String.mk (natToDigits (n + 1) n [])

/-- Models String.prototype.padStart(width, c) from the segment-name
interpolation: prepend copies of the pad character until the width is
reached; a string already at least that wide is returned unchanged. -/
def padStart (s : String) (width : Nat) (c : Char) : String :=
  String.mk (List.replicate (width - s.length) c) ++ s

/-! ### Codec metadata, as probed by getFileCodecInfoFromStream -/

/-- One audio track descriptor as built by getFileCodecInfoFromStream. -/
structure AudioStreamInfo where
  index : Nat
  name : String
  language : String
  default : Bool
  codec : String
deriving DecidableEq, Repr

/-- One subtitle track descriptor as built by getFileCodecInfoFromStream. -/
structure SubtitleInfo where
  index : Nat
  title : String
  language : String
  forced : Bool
  default : Bool
deriving DecidableEq, Repr

/-- The probe result of getFileCodecInfoFromStream. The duration is a
JavaScript number; it is modelled as a rational. -/
structure CodecInfo where
  videoCodec : Option String
  pixFmt : Option String
  subtitles : List SubtitleInfo
  audioStreams : List AudioStreamInfo
  duration : ℚ
deriving DecidableEq

/-! ### Playlist Planner: the generatePreGeneratedM3U8 family -/

/-- Models path.join(a, b) for the relative joins used by the controller. -/
def pathJoin (a b : String) : String :=
  a ++ "/" ++ b

/-- The fixed segment duration constant (const hlsTime = 10) shared by the
video and audio playlist generators and the encoder arguments. -/
def hlsTime : Nat := 10

/-- Models Math.ceil(duration / hlsTime) used as the loop bound: a JavaScript
for loop with a non-positive bound runs zero times, hence the toNat. -/
def numberOfSegments (duration : ℚ) : Nat :=
  (⌈duration / (hlsTime : ℚ)⌉).toNat

/-- The per-segment duration tag line pushed before every segment name. -/
def extinfLine : String :=
  "#EXTINF:" ++ jsNatToString hlsTime ++ ","

/-- Video segment file name written into the placeholder video playlist. -/
def videoSegmentName (i : Nat) : String :=
  "segment_" ++ padStart (jsNatToString i) 3 '0' ++ ".ts"

/-- Audio segment file name written into the placeholder audio playlist for
the track with the given index. -/
def audioSegmentName (idx i : Nat) : String :=
  "audio_" ++ jsNatToString idx ++ "_" ++ padStart (jsNatToString i) 3 '0' ++ ".ts"

/-- Audio playlist file name for the track with the given index. -/
def audioPlaylistName (idx : Nat) : String :=
  "audio_" ++ jsNatToString idx ++ ".m3u8"

/-- Subtitle output file name for the track with the given index. -/
def subtitleFileName (idx : Nat) : String :=
  "subtitles_" ++ jsNatToString idx ++ ".vtt"

/-- Subtitle playlist file name for the track with the given index. -/
def subtitlePlaylistName (idx : Nat) : String :=
  "subtitles_" ++ jsNatToString idx ++ ".m3u8"

/-- Lines of the placeholder video playlist built by
generatePreGeneratedM3U8Video before joining with newlines. -/
def generatePreGeneratedM3U8VideoLines (duration : ℚ) : List String :=
  ["#EXTM3U", "#EXT-X-VERSION:3",
   "#EXT-X-TARGETDURATION:" ++ jsNatToString hlsTime,
   "#EXT-X-MEDIA-SEQUENCE:0"] ++
  (List.range (numberOfSegments duration)).flatMap
    (fun i => [extinfLine, videoSegmentName i]) ++
  ["#EXT-X-ENDLIST"]

/-- Lines of the placeholder audio playlist built by
generatePreGeneratedM3U8Audio for one audio track. -/
def generatePreGeneratedM3U8AudioLines (idx : Nat) (duration : ℚ) : List String :=
  ["#EXTM3U", "#EXT-X-VERSION:3",
   "#EXT-X-TARGETDURATION:" ++ jsNatToString hlsTime,
   "#EXT-X-MEDIA-SEQUENCE:0"] ++
  (List.range (numberOfSegments duration)).flatMap
    (fun i => [extinfLine, audioSegmentName idx i]) ++
  ["#EXT-X-ENDLIST"]

/-- Models the JavaScript number-to-string conversion for the raw duration
interpolated into the subtitle playlist; the exact decimal rendering of a
non-integral duration is irrelevant to every claim, so the rational is
rendered with the standard representation. -/
def jsRatToString (q : ℚ) : String :=
  toString q

/-- Models Math.round for the target-duration line of the subtitle playlist:
floor of the value plus one half. -/
def jsMathRound (q : ℚ) : ℤ :=
  ⌊q + 1 / 2⌋

/-- Renders an integer the way JavaScript template interpolation does. -/
def jsIntToString (z : ℤ) : String :=
  if z < 0 then "-" ++ jsNatToString z.natAbs else jsNatToString z.natAbs

/-- Lines of the subtitle playlist built by generatePreGeneratedM3U8Subtitle
for one subtitle track: a single entry spanning the whole duration. -/
def generatePreGeneratedM3U8SubtitleLines (idx : Nat) (duration : ℚ) : List String :=
  ["#EXTM3U", "#EXT-X-VERSION:3",
   "#EXT-X-TARGETDURATION:" ++ jsIntToString (jsMathRound duration),
   "#EXT-X-MEDIA-SEQUENCE:0",
   "#EXTINF:" ++ jsRatToString duration ++ ",",
   subtitleFileName idx,
   "#EXT-X-ENDLIST"]

/-- One EXT-X-MEDIA subtitle line of the master playlist. The NAME attribute
reproduces a quirk of the source: the template computes
(title + language + String(forced)) ? " (Forced)" : "", and the tested string
concatenation is always non-empty, hence always truthy, so the attribute is
the constant " (Forced)". -/
def masterSubtitleLine (s : SubtitleInfo) : String :=
  "#EXT-X-MEDIA:TYPE=SUBTITLES,GROUP-ID=\"\",NAME=\"" ++ " (Forced)" ++
  "\",LANGUAGE=\"" ++ s.language ++
  "\",DEFAULT=" ++ (if s.default then "YES" else "NO") ++
  ",AUTOSELECT=NO,FORCED=" ++ (if s.forced then "YES" else "NO") ++
  ",URI=\"hls/" ++ subtitlePlaylistName s.index ++ "\""

/-- One EXT-X-MEDIA audio line of the master playlist. -/
def masterAudioLine (a : AudioStreamInfo) : String :=
  "#EXT-X-MEDIA:TYPE=AUDIO,GROUP-ID=\"\",NAME=\"" ++ a.name ++
  "\",DEFAULT=" ++ (if a.default then "YES" else "NO") ++
  ",AUTOSELECT=YES,LANGUAGE=\"" ++ a.language ++
  "\",URI=\"hls/" ++ audioPlaylistName a.index ++ "\""

/-- Lines of the master playlist built by generatePreGeneratedM3U8Master:
subtitle alternates, then audio alternates, then the single video variant. -/
def generatePreGeneratedM3U8MasterLines (ci : CodecInfo) : List String :=
  ["#EXTM3U"] ++
  ci.subtitles.map masterSubtitleLine ++
  ci.audioStreams.map masterAudioLine ++
  ["#EXT-X-STREAM-INF:SUBTITLES=\"\",AUDIO=\"\"", "hls/video.m3u8"]

/-! ### Transcode Orchestrator: the process arguments built by generateHLS -/

/-- Models the optional-chaining test pixFmt?.includes(10) from the video
branch: undefined propagates to a falsy result. -/
def pixFmtIncludes10 (pixFmt : Option String) : Bool :=
  match pixFmt with
  | none => false
  | some s => charListIncludes "10".data s.data

/-- The codec selection portion of the video job arguments: stream copy for
h264 sources without a 10-bit pixel format, otherwise libx264 ultrafast. -/
def videoCodecArgs (ci : CodecInfo) : List String :=
  if ci.videoCodec = some "h264" ∧ pixFmtIncludes10 ci.pixFmt = false then
    ["-c:v", "copy"]
  else
    ["-c:v", "libx264", "-preset", "ultrafast"]

/-- The full ffmpeg argument list of the video job spawned by generateHLS. -/
def hlsArgs (ci : CodecInfo) (outputDir basePath : String) : List String :=
  ["-i", "pipe:0"] ++
  videoCodecArgs ci ++
  ["-an", "-g", "250", "-start_number", "0", "-hls_time", jsNatToString hlsTime,
   "-hls_list_size", "0",
   "-hls_segment_filename", pathJoin outputDir "segment_%03d.ts",
   "-hls_base_url", basePath,
   "-f", "hls", "-hls_playlist_type", "vod", "-tune", "zerolatency",
   pathJoin outputDir "video.m3u8"]

/-- The full ffmpeg argument list of one audio job spawned by generateHLS. -/
def audioArgs (a : AudioStreamInfo) (outputDir : String) : List String :=
  ["-i", "pipe:0", "-map", "0:a:" ++ jsNatToString a.index] ++
  (if a.codec = "aac" then ["-c:a", "copy"] else ["-c:a", "aac"]) ++
  ["-ac", "2", "-hls_list_size", "0", "-hls_time", jsNatToString hlsTime,
   "-hls_segment_filename",
   pathJoin outputDir ("audio_" ++ jsNatToString a.index ++ "_%03d.ts"),
   "-f", "hls", "-hls_playlist_type", "vod", "-tune", "zerolatency",
   pathJoin outputDir (audioPlaylistName a.index)]

/-- The full ffmpeg argument list of one subtitle job spawned by generateHLS. -/
def subtitleArgs (s : SubtitleInfo) (outputDir : String) : List String :=
  ["-i", "pipe:0", "-map", "0:s:" ++ jsNatToString s.index,
   "-scodec", "webvtt",
   pathJoin outputDir (subtitleFileName s.index)]

/-- The zero-padded decimal expansion ffmpeg applies to a %03d conversion:
decimal digits, left padded with zeros to a minimum width of three. -/
def fmt03 (n : Nat) : String :=
  let d := jsNatToString n
  if 3 ≤ d.length then d
  else String.mk (List.replicate (3 - d.length) '0') ++ d

/-- Substitutes the first %03d conversion of an ffmpeg segment-name template
by the padded decimal rendering of the segment number. -/
def subst03 (n : Nat) : List Char → List Char
  | [] => []
  | c :: cs =>
    if c = '%' ∧ charListStartsWith "03d".data cs then
      (fmt03 n).data ++ cs.drop 3
    else
      c :: subst03 n cs

/-- The file name the encoder process writes for segment number n of a job
whose -hls_segment_filename argument is the given template. -/
def expandSegmentTemplate (template : String) (n : Nat) : String :=
  String.mk (subst03 n template.data)

/-! ### Subtitle Post-Processor: patchVttWithTimestampMap -/

/-- The fixed timestamp-alignment directive inserted after the WEBVTT header. -/
def timestampMapLine : String :=
  "X-TIMESTAMP-MAP=LOCAL:00:00:00.000,MPEGTS:135000"

/-- Models line.startsWith(WEBVTT) from the findIndex predicate. -/
def lineIsWebvttHeader (l : String) : Bool :=
  charListStartsWith "WEBVTT".data l.data

/-- The line transformation of patchVttWithTimestampMap: find the first line
starting with WEBVTT and splice the timestamp directive in right after it;
when findIndex returns -1 the lines are left untouched. The recursion walks
to the first header line exactly as findIndex followed by
splice(headerIndex + 1, 0, directive) does. -/
def patchVttLines : List String → List String
  | [] => []
  | l :: ls =>
    if lineIsWebvttHeader l then l :: timestampMapLine :: ls
    else l :: patchVttLines ls

/-- Outcome of one run of patchVttWithTimestampMap over the split lines of
the file, absent filesystem faults. The try body contains no logging call;
the only console.error of the function sits in the catch handler, which fires
solely on a thrown filesystem error, and that handler swallows the exception,
so a run that reads and writes successfully logs nothing and never raises. -/
structure VttPatchOutcome where
  lines : List String
  logs : List String
  raised : Bool
deriving DecidableEq

/-- Models patchVttWithTimestampMap on a file whose content splits into the
given lines, when reading and writing the file succeed. -/
def patchVttWithTimestampMap (lines : List String) : VttPatchOutcome :=
  { lines := patchVttLines lines, logs := [], raised := false }

/-! ### Range Streaming Server: the stream branch of play -/

/-- A parsed byte range. -/
structure RangeSpan where
  start : Nat
  «end» : Nat
deriving DecidableEq, Repr

/-- Parses a run of decimal digits, accumulating the value. -/
def parseNatAux : List Char → Nat → Option Nat
  | [], acc => some acc
  | c :: cs, acc =>
    if '0' ≤ c ∧ c ≤ '9' then
      parseNatAux cs (acc * 10 + (c.toNat - 48))
    else none

/-- Parses a non-empty run of decimal digits. -/
def parseNatChars : List Char → Option Nat
  | [] => none
  | c :: cs => parseNatAux (c :: cs) 0

/-- Drops the given literal from the front of the subject, or fails. -/
def dropLiteral : List Char → List Char → Option (List Char)
  | [], cs => some cs
  | _ :: _, [] => none
  | p :: ps, c :: cs => if p = c then dropLiteral ps cs else none

/-- Splits the subject at every occurrence of the separator character. -/
def splitOnChar (sep : Char) : List Char → List Char → List (List Char)
  | [], acc => [acc.reverse]
  | c :: cs, acc =>
    if c = sep then acc.reverse :: splitOnChar sep cs []
    else splitOnChar sep cs (c :: acc)

/-- Modelled from the spec: the helper src/utils/parse-range-header.ts is not
under src/, only its call site is. Per the spec, it parses a single-range
bytes=start-end request header against the file length, an omitted end
meaning the last byte, and reports failure on a missing or malformed header
and on spans with start greater than end, start at or past the length, or end
past the last byte, which the caller answers with a 416. -/
def parseRangeHeader (header : Option String) (length : Nat) : Option RangeSpan :=
  match header with
  | none => none
  | some h =>
    match dropLiteral "bytes=".data h.data with
    | none => none
    | some rest =>
      match splitOnChar '-' rest [] with
      | [s, e] =>
        match parseNatChars s, (if e = [] then some (length - 1) else parseNatChars e) with
        | some st, some en =>
          if st ≤ en ∧ st < length ∧ en < length then
            some { start := st, «end» := en }
          else none
        | _, _ => none
      | _ => none

/-- Body of an HTTP response of the play handler. -/
inductive PlayBody where
  | fileStream (start fin : Nat)
  | text (content : String)
deriving DecidableEq

/-- An HTTP response of the play handler: status, headers in order, body. -/
structure HttpResponse where
  status : Nat
  headers : List (String × String)
  body : Option PlayBody
deriving DecidableEq

/-- The stream-mode GET branch of play: parse the range header against the
file length; answer 416 with a bytes */length content range and no body when
parsing fails, otherwise 206 with the exact span, streaming from a cursor
opened at the span. -/
def playStreamGet (rangeHeader : Option String) (fileLength : Nat)
    (fileType : String) : HttpResponse :=
  match parseRangeHeader rangeHeader fileLength with
  | none =>
    { status := 416,
      headers := [("Content-Range", "bytes */" ++ jsNatToString fileLength)],
      body := none }
  | some r =>
    { status := 206,
      headers :=
        [("Content-Range",
          "bytes " ++ jsNatToString r.start ++ "-" ++ jsNatToString r.«end» ++
          "/" ++ jsNatToString fileLength),
         ("Content-Length", jsNatToString (r.«end» - r.start + 1)),
         ("Content-Type", fileType),
         ("Accept-Ranges", "bytes")],
      body := some (PlayBody.fileStream r.start r.«end») }

/-! ### Delivery-type selection in getStreamsForMedia -/

/-- Characters the dot of a JavaScript regular expression does not match. -/
def jsDotChar (c : Char) : Bool :=
  c ≠ '\n' && c ≠ '\r' && c ≠ ' ' && c ≠ ' '

/-- Characters matched by a backslash-s class of a JavaScript regular
expression. -/
def jsWhitespaceChar (c : Char) : Bool :=
  c = ' ' || c = '\t' || c = '\n' || c = '\r' || c = '\x0b' || c = '\x0c' ||
  c = ' ' || c = ' ' ||
  (' ' ≤ c && c ≤ ' ') ||
  c = ' ' || c = ' ' || c = ' ' || c = ' ' ||
  c = '　' || c = '﻿'

/-- Unanchored search: the step predicate holds at some suffix, as the test
method of a JavaScript regular expression searches every start position. -/
def tailsAny (f : List Char → Bool) : List Char → Bool
  | [] => f []
  | c :: cs => f (c :: cs) || tailsAny f cs

/-- Matches a dot-star followed by the literal TV, from the Android.*TV
pattern: skip any run of dot characters and then read TV. -/
def dotStarTV : List Char → Bool
  | [] => false
  | c :: cs => charListStartsWith "TV".data (c :: cs) || (jsDotChar c && dotStarTV cs)

/-- Models the test of the Android.*TV pattern. -/
def testAndroidTV (cs : List Char) : Bool :=
  tailsAny
    (fun t =>
      match dropLiteral "Android".data t with
      | some r => charListStartsWith "TV".data r || dotStarTV r
      | none => false)
    cs

/-- Models the test of the Google-whitespace-TV pattern. -/
def testGoogleTV (cs : List Char) : Bool :=
  tailsAny
    (fun t =>
      match dropLiteral "Google".data t with
      | some (c :: r) => jsWhitespaceChar c && charListStartsWith "TV".data r
      | some [] => false
      | none => false)
    cs

/-- Models the test of the CrKey literal pattern. -/
def testCrKey (cs : List Char) : Bool :=
  tailsAny (fun t => (dropLiteral "CrKey".data t).isSome) cs

/-- Models the test of the Android literal pattern. -/
def testAndroid (cs : List Char) : Bool :=
  tailsAny (fun t => (dropLiteral "Android".data t).isSome) cs

/-- The delivery-type condition of getStreamsForMedia: the User-Agent header
is absent, or one of the four patterns matches it, in the order tested by the
source. -/
def hlsUserAgent (userAgent : Option String) : Bool :=
  match userAgent with
  | none => true
  | some s =>
    testAndroidTV s.data || testGoogleTV s.data || testCrKey s.data ||
    testAndroid s.data

/-- One stream object of the getStreamsForMedia response, keeping the fields
the controller passes to convertTorrentToStream that the claims mention. -/
structure StreamEntry (α : Type) where
  torrent : α
  isRecommended : Bool
  type : String
deriving DecidableEq

/-- The stream-list construction of getStreamsForMedia: one delivery type is
computed from the User-Agent header and passed to the conversion of every
ordered torrent, the first being the recommended one. -/
def getStreamsForMedia (userAgent : Option String) (torrents : List α) :
    List (StreamEntry α) :=
  let streamType := if hlsUserAgent userAgent then "hls" else "stream"
  torrents.enum.map
    (fun p => { torrent := p.2, isRecommended := decide (p.1 = 0), type := streamType })

/-! ### Filesystem state, session initialization and the readiness gate -/

/-- Explicit filesystem state threaded through the HLS branch of play:
created directories and written files with their content. A later write of
the same path shadows the earlier one. -/
structure FileSystem where
  dirs : List String
  files : List (String × String)
deriving DecidableEq

/-- Models existsSync on a file path. -/
def fileExists (fs : FileSystem) (p : String) : Bool :=
  (fs.files.lookup p).isSome

/-- Models readFile on a path, none when the path is absent. -/
def readFileOpt (fs : FileSystem) (p : String) : Option String :=
  fs.files.lookup p

/-- Models writeFile. -/
def writeFileFS (fs : FileSystem) (p content : String) : FileSystem :=
  { fs with files := (p, content) :: fs.files }

/-- Models mkdirSync with the recursive flag. -/
def mkdirRecFS (fs : FileSystem) (d : String) : FileSystem :=
  { fs with dirs := d :: fs.dirs }

/-- Models existsSync on the session output directory. -/
def dirExists (fs : FileSystem) (d : String) : Bool :=
  fs.dirs.contains d

/-- The audio playlist writes of generatePreGeneratedM3U8Audio, one file per
audio descriptor, in descriptor order. -/
def writeAudioPlaylists (fs : FileSystem) (outputDir : String) (ci : CodecInfo) :
    FileSystem :=
  ci.audioStreams.foldl
    (fun acc a =>
      writeFileFS acc (pathJoin outputDir (audioPlaylistName a.index))
        (String.intercalate "\n" (generatePreGeneratedM3U8AudioLines a.index ci.duration)))
    fs

/-- The subtitle playlist writes of generatePreGeneratedM3U8Subtitle. -/
def writeSubtitlePlaylists (fs : FileSystem) (outputDir : String) (ci : CodecInfo) :
    FileSystem :=
  ci.subtitles.foldl
    (fun acc s =>
      writeFileFS acc (pathJoin outputDir (subtitlePlaylistName s.index))
        (String.intercalate "\n" (generatePreGeneratedM3U8SubtitleLines s.index ci.duration)))
    fs

/-- The video playlist write of generatePreGeneratedM3U8Video. -/
def writeVideoPlaylist (fs : FileSystem) (outputDir : String) (ci : CodecInfo) :
    FileSystem :=
  writeFileFS fs (pathJoin outputDir "video.m3u8")
    (String.intercalate "\n" (generatePreGeneratedM3U8VideoLines ci.duration))

/-- The master playlist write of generatePreGeneratedM3U8Master. -/
def writeMasterPlaylist (fs : FileSystem) (outputDir : String) (ci : CodecInfo) :
    FileSystem :=
  writeFileFS fs (pathJoin outputDir "master.m3u8")
    (String.intercalate "\n" (generatePreGeneratedM3U8MasterLines ci))

/-- All placeholder playlist writes of the first HLS request, in the order
the source awaits them: audio, subtitle, video, master. -/
def writeAllPlaylists (fs : FileSystem) (outputDir : String) (ci : CodecInfo) :
    FileSystem :=
  writeMasterPlaylist
    (writeVideoPlaylist
      (writeSubtitlePlaylists
        (writeAudioPlaylists fs outputDir ci) outputDir ci) outputDir ci)
    outputDir ci

/-- The initialization guard of the HLS branch of play: when the output
directory is missing, it is created first, then the codec probe runs; a probe
rejection propagates out of play before any playlist is written, while a
successful probe writes every placeholder playlist and kicks off encoding.
When the directory already exists the whole block is skipped. The returned
option carries the propagated probe error. -/
def hlsSessionInit (fs : FileSystem) (outputDir : String)
    (probe : Except String CodecInfo) : FileSystem × Option String :=
  if dirExists fs outputDir then (fs, none)
  else
    let fs1 := mkdirRecFS fs outputDir
    match probe with
    | Except.error e => (fs1, some e)
    | Except.ok ci => (writeAllPlaylists fs1 outputDir ci, none)

/-- The polling loop while !existsSync(p) await sleep(100): over a
time-indexed trace of filesystem states, return the first tick at or after t
at which the path exists, searching at most fuel ticks. An exhausted fuel
models a wait that has not terminated within that many polls. -/
def waitExists (σ : Nat → FileSystem) (p : String) : Nat → Nat → Option Nat
  | _, 0 => none
  | t, fuel + 1 => if fileExists (σ t) p then some t else waitExists σ p (t + 1) fuel

/-- Response of the HLS GET branch of play. -/
structure HlsResponse where
  status : Nat
  contentType : String
  body : Option String
deriving DecidableEq

/-- The readiness-gated tail of the HLS GET branch of play: wait until the
master playlist exists, then wait until the fifth video segment exists, then
read the master playlist and answer 200 with its content. The result is none
while either wait is still running after fuel polls. -/
def playHlsGet (σ : Nat → FileSystem) (outputDir : String) (t0 fuel : Nat) :
    Option HlsResponse :=
  match waitExists σ (pathJoin outputDir "master.m3u8") t0 fuel with
  | none => none
  | some t1 =>
    match waitExists σ (pathJoin outputDir "segment_004.ts") t1 fuel with
    | none => none
    | some t2 =>
      some { status := 200,
             contentType := "application/vnd.apple.mpegurl",
             body := readFileOpt (σ t2) (pathJoin outputDir "master.m3u8") }

/-! ### Helper lemmas -/

/-- Two strings with equal character data are equal. -/
theorem string_eq_of_data_eq {a b : String} (h : a.data = b.data) : a = b := by
  cases a
  cases b
  exact congrArg String.mk h

/-- A header-free line list is left untouched by the patch transformation. -/
theorem patchVttLines_of_no_header :
    ∀ lines : List String, (∀ l ∈ lines, lineIsWebvttHeader l = false) →
      patchVttLines lines = lines := by
  intro lines
  induction lines with
  | nil => intro _; rfl
  | cons l ls ih =>
    intro h
    have hl : lineIsWebvttHeader l = false := h l (List.mem_cons_self l ls)
    have hls := ih (fun x hx => h x (List.mem_cons_of_mem l hx))
    simp [patchVttLines, hl, hls]

/-- The directive line does not itself start with the WEBVTT marker. -/
theorem timestampMapLine_not_header : lineIsWebvttHeader timestampMapLine = false := by
  decide

/-- One application of the patch over a line list containing a header adds
exactly one directive line and keeps a header line present. -/
theorem patchVttLines_count :
    ∀ lines : List String, (∃ l ∈ lines, lineIsWebvttHeader l = true) →
      (patchVttLines lines).count timestampMapLine = lines.count timestampMapLine + 1
      ∧ (∃ l ∈ patchVttLines lines, lineIsWebvttHeader l = true) := by
  intro lines
  induction lines with
  | nil => intro h; simp at h
  | cons l ls ih =>
    intro h
    by_cases hl : lineIsWebvttHeader l = true
    · constructor
      · have hne : l ≠ timestampMapLine := by
          intro he
          rw [he, timestampMapLine_not_header] at hl
          exact Bool.false_ne_true hl
        simp [patchVttLines, hl, List.count_cons, hne]
      · exact ⟨l, by simp [patchVttLines, hl], hl⟩
    · have hl' : lineIsWebvttHeader l = false := by
        cases hv : lineIsWebvttHeader l
        · rfl
        · exact absurd hv hl
      have hex : ∃ x ∈ ls, lineIsWebvttHeader x = true := by
        obtain ⟨x, hx, hxh⟩ := h
        rcases List.mem_cons.mp hx with rfl | hx'
        · exact absurd hxh hl
        · exact ⟨x, hx', hxh⟩
      obtain ⟨hcount, hhead⟩ := ih hex
      constructor
      · simp [patchVttLines, hl', List.count_cons]
        omega
      · obtain ⟨x, hx, hxh⟩ := hhead
        exact ⟨x, by simp [patchVttLines, hl', List.mem_cons]; right; exact hx, hxh⟩

/-! ### C4: codec selection of the video job -/

/-- Claim C4: for every CodecInfo, the constructed video job arguments select
stream copy exactly when the source video codec is h264 and the pixel format
does not indicate 10-bit depth; in every other case they select libx264 at
the ultrafast preset. -/
theorem c4_video_codec_selection (ci : CodecInfo) (outputDir basePath : String) :
    ((hlsArgs ci outputDir basePath).take 4 = ["-i", "pipe:0", "-c:v", "copy"]
      ↔ (ci.videoCodec = some "h264" ∧ pixFmtIncludes10 ci.pixFmt = false))
    ∧ (¬ (ci.videoCodec = some "h264" ∧ pixFmtIncludes10 ci.pixFmt = false) →
        (hlsArgs ci outputDir basePath).take 6 =
          ["-i", "pipe:0", "-c:v", "libx264", "-preset", "ultrafast"]) := by
  unfold hlsArgs videoCodecArgs
  by_cases h : ci.videoCodec = some "h264" ∧ pixFmtIncludes10 ci.pixFmt = false
  · constructor
    · simp [h]
    · intro hc
      exact absurd h hc
  · constructor
    · simp only [if_neg h]
      constructor
      · intro he
        simp at he
      · intro hc
        exact absurd hc h
    · intro _
      simp [if_neg h]

/-- Witness for C4 at a concrete h264 8-bit probe result. -/
theorem c4_video_codec_selection_witness :
    (hlsArgs { videoCodec := some "h264", pixFmt := some "yuv420p", subtitles := [],
               audioStreams := [], duration := 3600 } "/out" "").take 4 =
        ["-i", "pipe:0", "-c:v", "copy"]
      ↔ ((some "h264" : Option String) = some "h264" ∧
          pixFmtIncludes10 (some "yuv420p") = false) :=
  (c4_video_codec_selection
    { videoCodec := some "h264", pixFmt := some "yuv420p", subtitles := [],
      audioStreams := [], duration := 3600 } "/out" "").1

/-! ### C5: subtitle patching is not idempotent -/

/-- Counterexample to claim C5: on the well-formed single-line file WEBVTT,
a second application of the timestamp-map patch inserts a second directive,
so the patch is not idempotent. -/
theorem c5_idempotence_counterexample :
    lineIsWebvttHeader "WEBVTT" = true
    ∧ patchVttLines (patchVttLines ["WEBVTT"]) ≠ patchVttLines ["WEBVTT"] := by
  decide

/-- Amended claim C5: on every file containing a WEBVTT header line, a second
application of the patch is observably different from one application; it
inserts one more timestamp-map directive, so the patch is not idempotent. -/
theorem c5_second_patch_inserts_directive (lines : List String)
    (h : ∃ l ∈ lines, lineIsWebvttHeader l = true) :
    (patchVttLines (patchVttLines lines)).count timestampMapLine =
      (patchVttLines lines).count timestampMapLine + 1
    ∧ patchVttLines (patchVttLines lines) ≠ patchVttLines lines := by
  obtain ⟨h1, hhead⟩ := patchVttLines_count lines h
  obtain ⟨h2, _⟩ := patchVttLines_count (patchVttLines lines) hhead
  refine ⟨h2, fun he => ?_⟩
  rw [he] at h2
  omega

/-- Witness for the amended claim C5 at the single-line file WEBVTT. -/
theorem c5_second_patch_inserts_directive_witness :
    (patchVttLines (patchVttLines ["WEBVTT"])).count timestampMapLine =
      (patchVttLines ["WEBVTT"]).count timestampMapLine + 1
    ∧ patchVttLines (patchVttLines ["WEBVTT"]) ≠ patchVttLines ["WEBVTT"] :=
  c5_second_patch_inserts_directive ["WEBVTT"] ⟨"WEBVTT", by decide, by decide⟩

/-! ### C8: behaviour of the patch when the header marker is absent -/

/-- Counterexample to claim C8: on a file with no WEBVTT header line the
patch run leaves the content unmodified and raises nothing, but it also logs
nothing, against the claim that the failure is logged: the only logging call
of the function sits in the catch handler for filesystem errors. -/
theorem c8_missing_header_counterexample :
    (∀ l ∈ ["hello"], lineIsWebvttHeader l = false)
    ∧ (patchVttWithTimestampMap ["hello"]).lines = ["hello"]
    ∧ (patchVttWithTimestampMap ["hello"]).logs = [] := by
  decide

/-- Amended claim C8: for every subtitle file whose lines contain no WEBVTT
header, the patch run leaves the content unmodified and does not raise, and,
contrary to the original claim, logs nothing, because the only logging site
is the catch handler for filesystem faults, which a missing header does not
trigger. -/
theorem c8_missing_header_leaves_file (lines : List String)
    (h : ∀ l ∈ lines, lineIsWebvttHeader l = false) :
    (patchVttWithTimestampMap lines).lines = lines
    ∧ (patchVttWithTimestampMap lines).logs = []
    ∧ (patchVttWithTimestampMap lines).raised = false := by
  refine ⟨?_, rfl, rfl⟩
  exact patchVttLines_of_no_header lines h

/-- Witness for the amended claim C8 at a concrete header-free file. -/
theorem c8_missing_header_leaves_file_witness :
    (patchVttWithTimestampMap ["hello", "world"]).lines = ["hello", "world"]
    ∧ (patchVttWithTimestampMap ["hello", "world"]).logs = []
    ∧ (patchVttWithTimestampMap ["hello", "world"]).raised = false :=
  c8_missing_header_leaves_file ["hello", "world"] (by decide)

/-! ### C6 and C7: the Range Streaming Server responses -/

/-- Claim C6: for every stream-mode GET request whose Range header parses to
a valid span, the response has status 206, a Content-Range header equal to
bytes start-end/length, a Content-Length header equal to the span width, and
streams exactly the requested span. -/
theorem c6_valid_range_partial_content (rangeHeader : Option String)
    (fileLength : Nat) (fileType : String) (s e : Nat)
    (h : parseRangeHeader rangeHeader fileLength = some { start := s, «end» := e }) :
    (playStreamGet rangeHeader fileLength fileType).status = 206
    ∧ (playStreamGet rangeHeader fileLength fileType).headers.lookup "Content-Range" =
        some ("bytes " ++ jsNatToString s ++ "-" ++ jsNatToString e ++ "/" ++
          jsNatToString fileLength)
    ∧ (playStreamGet rangeHeader fileLength fileType).headers.lookup "Content-Length" =
        some (jsNatToString (e - s + 1))
    ∧ (playStreamGet rangeHeader fileLength fileType).body =
        some (PlayBody.fileStream s e) := by
  unfold playStreamGet
  rw [h]
  refine ⟨rfl, ?_, ?_, rfl⟩
  · simp [List.lookup]
  · simp [List.lookup]

/-- Witness for C6: the spec example bytes=0-99 on a 1000-byte file yields
206 with Content-Length 100 and Content-Range bytes 0-99/1000. -/
theorem c6_valid_range_partial_content_witness :
    (parseRangeHeader (some "bytes=0-99") 1000 = some { start := 0, «end» := 99 })
    ∧ ((playStreamGet (some "bytes=0-99") 1000 "video/x-matroska").status = 206
      ∧ (playStreamGet (some "bytes=0-99") 1000 "video/x-matroska").headers.lookup
          "Content-Range" = some "bytes 0-99/1000"
      ∧ (playStreamGet (some "bytes=0-99") 1000 "video/x-matroska").headers.lookup
          "Content-Length" = some "100") := by
  have h : parseRangeHeader (some "bytes=0-99") 1000 = some { start := 0, «end» := 99 } := by
    decide
  obtain ⟨h1, h2, h3, _⟩ :=
    c6_valid_range_partial_content (some "bytes=0-99") 1000 "video/x-matroska" 0 99 h
  refine ⟨h, h1, ?_, ?_⟩
  · rw [h2]
    decide
  · rw [h3]
    decide

/-- Claim C7: for every stream-mode GET request whose Range header is missing
or does not parse to a valid span, the response has status 416, no body, and
a Content-Range header reporting the full length. -/
theorem c7_invalid_range_not_satisfiable (rangeHeader : Option String)
    (fileLength : Nat) (fileType : String)
    (h : parseRangeHeader rangeHeader fileLength = none) :
    (playStreamGet rangeHeader fileLength fileType).status = 416
    ∧ (playStreamGet rangeHeader fileLength fileType).body = none
    ∧ (playStreamGet rangeHeader fileLength fileType).headers =
        [("Content-Range", "bytes */" ++ jsNatToString fileLength)]
    ∧ parseRangeHeader none fileLength = none := by
  unfold playStreamGet
  rw [h]
  exact ⟨rfl, rfl, rfl, rfl⟩

/-- Witness for C7 at a span with start greater than end on a 10-byte file. -/
theorem c7_invalid_range_not_satisfiable_witness :
    (parseRangeHeader (some "bytes=5-2") 10 = none)
    ∧ ((playStreamGet (some "bytes=5-2") 10 "video/mp4").status = 416
      ∧ (playStreamGet (some "bytes=5-2") 10 "video/mp4").body = none
      ∧ (playStreamGet (some "bytes=5-2") 10 "video/mp4").headers =
          [("Content-Range", "bytes */10")]) := by
  have h : parseRangeHeader (some "bytes=5-2") 10 = none := by decide
  obtain ⟨h1, h2, h3, _⟩ := c7_invalid_range_not_satisfiable (some "bytes=5-2") 10 "video/mp4" h
  refine ⟨h, h1, h2, ?_⟩
  rw [h3]
  decide

/-! ### C10: delivery-type selection -/

/-- Claim C10: every stream of one getStreamsForMedia response carries type
hls exactly when the User-Agent header is absent or matches one of the four
patterns, carries type stream otherwise, and the chosen type is uniform over
the response. -/
theorem c10_delivery_type_selection {α : Type} (userAgent : Option String)
    (torrents : List α) (s : StreamEntry α)
    (hs : s ∈ getStreamsForMedia userAgent torrents) :
    (s.type = "hls" ↔ hlsUserAgent userAgent = true)
    ∧ (s.type = "stream" ↔ hlsUserAgent userAgent = false)
    ∧ (∀ s' ∈ getStreamsForMedia userAgent torrents, s'.type = s.type) := by
  have htype : ∀ x ∈ getStreamsForMedia userAgent torrents,
      x.type = if hlsUserAgent userAgent then "hls" else "stream" := by
    intro x hx
    unfold getStreamsForMedia at hx
    obtain ⟨p, _, hpx⟩ := List.mem_map.mp hx
    rw [← hpx]
  have hst := htype s hs
  cases hua : hlsUserAgent userAgent
  · rw [hua] at hst
    simp only [if_neg Bool.false_ne_true] at hst
    refine ⟨?_, ?_, ?_⟩
    · rw [hst]
      simp
    · simp [hst]
    · intro s' hs'
      have := htype s' hs'
      rw [hua] at this
      simp only [if_neg Bool.false_ne_true] at this
      rw [this, hst]
  · rw [hua] at hst
    simp only [if_pos rfl] at hst
    refine ⟨?_, ?_, ?_⟩
    · simp [hst]
    · rw [hst]
      simp
    · intro s' hs'
      have := htype s' hs'
      rw [hua] at this
      simp only [if_pos rfl] at this
      rw [this, hst]

/-- Witness for C10: a Chromecast User-Agent yields hls for the single
returned stream. -/
theorem c10_delivery_type_selection_witness :
    ({ torrent := 0, isRecommended := true, type := "hls" } : StreamEntry Nat) ∈
        getStreamsForMedia (some "Mozilla/5.0 (X11; CrKey armv7l)") [0]
    ∧ (({ torrent := 0, isRecommended := true, type := "hls" } : StreamEntry Nat).type = "hls"
        ↔ hlsUserAgent (some "Mozilla/5.0 (X11; CrKey armv7l)") = true) := by
  have hmem : ({ torrent := 0, isRecommended := true, type := "hls" } : StreamEntry Nat) ∈
      getStreamsForMedia (some "Mozilla/5.0 (X11; CrKey armv7l)") [0] := by
    decide
  exact ⟨hmem,
    (c10_delivery_type_selection (some "Mozilla/5.0 (X11; CrKey armv7l)") [0] _ hmem).1⟩

/-! ### C2: segment counts of the placeholder playlists -/

/-- Length of a padded string: pad length plus original length. -/
theorem padStart_length (s : String) (w : Nat) (c : Char) :
    (padStart s w c).length = (w - s.length) + s.length := by
  unfold padStart
  rw [String.length_append]
  congr 1
  show (List.replicate (w - s.length) c).length = w - s.length
  exact List.length_replicate _ _

/-- The per-segment duration tag line has eleven characters. -/
theorem extinfLine_length : extinfLine.length = 11 := by decide

/-- Every video segment name has at least fourteen characters. -/
theorem videoSegmentName_length (i : Nat) : 14 ≤ (videoSegmentName i).length := by
  unfold videoSegmentName
  rw [String.length_append, String.length_append, padStart_length]
  have h8 : ("segment_" : String).length = 8 := by decide
  have h3 : ((".ts" : String)).length = 3 := by decide
  rw [h8, h3]
  omega

/-- Every audio segment name has at least thirteen characters. -/
theorem audioSegmentName_length (idx i : Nat) : 13 ≤ (audioSegmentName idx i).length := by
  unfold audioSegmentName
  rw [String.length_append, String.length_append, String.length_append,
    String.length_append, padStart_length]
  have h6 : ("audio_" : String).length = 6 := by decide
  have h1 : ("_" : String).length = 1 := by decide
  have h3 : ((".ts" : String)).length = 3 := by decide
  rw [h6, h1, h3]
  omega

/-- A video segment name is never the duration tag line. -/
theorem videoSegmentName_ne_extinfLine (i : Nat) : videoSegmentName i ≠ extinfLine := by
  intro h
  have hlen := videoSegmentName_length i
  rw [h, extinfLine_length] at hlen
  omega

/-- An audio segment name is never the duration tag line. -/
theorem audioSegmentName_ne_extinfLine (idx i : Nat) :
    audioSegmentName idx i ≠ extinfLine := by
  intro h
  have hlen := audioSegmentName_length idx i
  rw [h, extinfLine_length] at hlen
  omega

/-- The run of segment entries contains one duration tag line per segment. -/
theorem count_extinf_segment_entries (f : Nat → String) (hf : ∀ i, f i ≠ extinfLine) :
    ∀ n, ((List.range n).flatMap (fun i => [extinfLine, f i])).count extinfLine = n := by
  intro n
  induction n with
  | zero => rfl
  | succ m ih =>
    have hfm := hf m
    simp [List.range_succ, List.count_append, List.count_cons, ih, Ne.symm hfm]

/-- The run of segment entries is two lines per segment. -/
theorem length_segment_entries (f : Nat → String) :
    ∀ n, ((List.range n).flatMap (fun i => [extinfLine, f i])).length = 2 * n := by
  intro n
  induction n with
  | zero => rfl
  | succ m ih =>
    simp [List.range_succ, ih]
    omega

/-- For a non-negative duration the segment count is the claimed ceiling. -/
theorem numberOfSegments_cast (d : ℚ) (hd : 0 ≤ d) :
    ((numberOfSegments d : ℕ) : ℤ) = ⌈d / 10⌉ := by
  unfold numberOfSegments
  have h10 : ((hlsTime : ℕ) : ℚ) = 10 := by norm_num [hlsTime]
  rw [h10]
  exact Int.toNat_of_nonneg (Int.ceil_nonneg (div_nonneg hd (by norm_num)))

/-- Claim C2: for every CodecInfo with non-negative duration, the placeholder
video playlist and each placeholder audio playlist contain exactly
ceil(duration / 10) segment entries, each entry being one duration tag line
followed by one segment name line, and end with the ENDLIST marker. -/
theorem c2_playlist_segment_counts (ci : CodecInfo) (hd : 0 ≤ ci.duration) :
    (((generatePreGeneratedM3U8VideoLines ci.duration).count extinfLine : ℤ) =
        ⌈ci.duration / 10⌉
      ∧ (generatePreGeneratedM3U8VideoLines ci.duration).getLast? =
          some "#EXT-X-ENDLIST"
      ∧ (generatePreGeneratedM3U8VideoLines ci.duration).length =
          4 + 2 * numberOfSegments ci.duration + 1)
    ∧ ∀ a ∈ ci.audioStreams,
        ((generatePreGeneratedM3U8AudioLines a.index ci.duration).count extinfLine : ℤ) =
            ⌈ci.duration / 10⌉
        ∧ (generatePreGeneratedM3U8AudioLines a.index ci.duration).getLast? =
            some "#EXT-X-ENDLIST"
        ∧ (generatePreGeneratedM3U8AudioLines a.index ci.duration).length =
            4 + 2 * numberOfSegments ci.duration + 1 := by
  have hhead : (["#EXTM3U", "#EXT-X-VERSION:3",
      "#EXT-X-TARGETDURATION:" ++ jsNatToString hlsTime,
      "#EXT-X-MEDIA-SEQUENCE:0"] : List String).count extinfLine = 0 := by decide
  have hend : (["#EXT-X-ENDLIST"] : List String).count extinfLine = 0 := by decide
  constructor
  · refine ⟨?_, ?_, ?_⟩
    · unfold generatePreGeneratedM3U8VideoLines
      rw [List.count_append, List.count_append, hhead, hend,
        count_extinf_segment_entries videoSegmentName videoSegmentName_ne_extinfLine]
      rw [Nat.zero_add, Nat.add_zero]
      exact numberOfSegments_cast ci.duration hd
    · unfold generatePreGeneratedM3U8VideoLines
      exact List.getLast?_concat _
    · unfold generatePreGeneratedM3U8VideoLines
      rw [List.length_append, List.length_append,
        length_segment_entries videoSegmentName]
      rfl
  · intro a _
    refine ⟨?_, ?_, ?_⟩
    · unfold generatePreGeneratedM3U8AudioLines
      rw [List.count_append, List.count_append, hhead, hend,
        count_extinf_segment_entries (audioSegmentName a.index)
          (audioSegmentName_ne_extinfLine a.index)]
      rw [Nat.zero_add, Nat.add_zero]
      exact numberOfSegments_cast ci.duration hd
    · unfold generatePreGeneratedM3U8AudioLines
      exact List.getLast?_concat _
    · unfold generatePreGeneratedM3U8AudioLines
      rw [List.length_append, List.length_append,
        length_segment_entries (audioSegmentName a.index)]
      rfl

/-- Witness for C2 at a 25-second probe result with one audio track. -/
theorem c2_playlist_segment_counts_witness :
    (0 : ℚ) ≤ (25 : ℚ)
    ∧ (((generatePreGeneratedM3U8VideoLines
          ({ videoCodec := some "h264", pixFmt := none, subtitles := [],
             audioStreams := [{ index := 0, name := "1", language := "unknown",
                                default := true, codec := "aac" }],
             duration := 25 } : CodecInfo).duration).count extinfLine : ℤ) =
        ⌈({ videoCodec := some "h264", pixFmt := none, subtitles := [],
            audioStreams := [{ index := 0, name := "1", language := "unknown",
                               default := true, codec := "aac" }],
            duration := 25 } : CodecInfo).duration / 10⌉) :=
  ⟨by decide,
    (c2_playlist_segment_counts
      { videoCodec := some "h264", pixFmt := none, subtitles := [],
        audioStreams := [{ index := 0, name := "1", language := "unknown",
                           default := true, codec := "aac" }],
        duration := 25 } (by decide)).1.1⟩

/-! ### C3: planner names agree with encoder names -/

/-- Appending onto the empty string is the identity. -/
theorem mk_nil_append (s : String) : String.mk [] ++ s = s := by
  apply string_eq_of_data_eq
  rw [String.data_append]
  exact List.nil_append s.data

/-- The padStart rendering of a segment index equals the %03d expansion. -/
theorem padStart_eq_fmt03 (n : Nat) : padStart (jsNatToString n) 3 '0' = fmt03 n := by
  unfold padStart fmt03
  by_cases h : 3 ≤ (jsNatToString n).length
  · rw [if_pos h, Nat.sub_eq_zero_of_le h, List.replicate_zero]
    exact mk_nil_append _
  · rw [if_neg h]

/-- Every character produced by the digit accumulator is a decimal digit. -/
theorem natToDigits_digit (fuel : Nat) :
    ∀ (n : Nat) (acc : List Char),
      (∀ c ∈ acc, ∃ d, d < 10 ∧ c = digitToChar d) →
      ∀ c ∈ natToDigits fuel n acc, ∃ d, d < 10 ∧ c = digitToChar d := by
  induction fuel with
  | zero => exact fun n acc hacc c hc => hacc c hc
  | succ m ih =>
    intro n acc hacc c hc
    unfold natToDigits at hc
    by_cases hn : n < 10
    · rw [if_pos hn] at hc
      rcases List.mem_cons.mp hc with rfl | h'
      · exact ⟨n, hn, rfl⟩
      · exact hacc c h'
    · rw [if_neg hn] at hc
      refine ih (n / 10) _ ?_ c hc
      intro x hx
      rcases List.mem_cons.mp hx with rfl | h'
      · exact ⟨n % 10, Nat.mod_lt _ (by omega), rfl⟩
      · exact hacc x h'

/-- A decimal digit character is never the percent sign. -/
theorem digitToChar_ne_pct : ∀ d, d < 10 → digitToChar d ≠ '%' := by decide

/-- The decimal rendering of a natural number contains no percent sign. -/
theorem jsNatToString_no_pct (n : Nat) : ∀ c ∈ (jsNatToString n).data, c ≠ '%' := by
  intro c hc
  obtain ⟨d, hd, rfl⟩ := natToDigits_digit (n + 1) n [] (by simp) c hc
  exact digitToChar_ne_pct d hd

/-- Template expansion passes unchanged over a percent-free lead. -/
theorem subst03_append_no_pct (n : Nat) (l₁ l₂ : List Char)
    (h : ∀ c ∈ l₁, c ≠ '%') :
    subst03 n (l₁ ++ l₂) = l₁ ++ subst03 n l₂ := by
  induction l₁ with
  | nil => rfl
  | cons c cs ih =>
    have hc : c ≠ '%' := h c (List.mem_cons_self c cs)
    have hcs := ih (fun x hx => h x (List.mem_cons_of_mem c hx))
    simp only [List.cons_append, subst03]
    rw [if_neg (fun hand => hc hand.1)]
    exact congrArg (List.cons c) hcs

/-- Expansion of the video segment template. -/
theorem subst03_video_template (n : Nat) :
    subst03 n ("segment_%03d.ts".data) =
      "segment_".data ++ ((fmt03 n).data ++ ".ts".data) := by
  show subst03 n ("segment_".data ++ "%03d.ts".data) = _
  rw [subst03_append_no_pct n _ _ (by decide)]
  rfl

/-- Expansion of the tail of the audio segment template. -/
theorem subst03_audio_tail (n : Nat) :
    subst03 n ("_%03d.ts".data) = '_' :: ((fmt03 n).data ++ ".ts".data) := by
  show subst03 n ('_' :: "%03d.ts".data) = _
  simp only [subst03]
  rw [if_neg (by decide)]
  rfl

/-- Claim C3: the segment and playlist file names the Playlist Planner writes
into the placeholder playlists are exactly the names the ffmpeg jobs spawned
by generateHLS are instructed to produce. The video job segment template,
expanded per segment number, equals the planner video segment name; likewise
for every audio track of the CodecInfo, and the audio job output playlist is
the planner audio playlist path. The generateHLS call site passes the empty
string as basePath. -/
theorem c3_planner_encoder_names (ci : CodecInfo) (outputDir basePath : String) :
    (∀ n, videoSegmentName n = expandSegmentTemplate "segment_%03d.ts" n)
    ∧ pathJoin outputDir "segment_%03d.ts" ∈ hlsArgs ci outputDir basePath
    ∧ (hlsArgs ci outputDir basePath).getLast? = some (pathJoin outputDir "video.m3u8")
    ∧ (∀ i, i < numberOfSegments ci.duration →
        videoSegmentName i ∈ generatePreGeneratedM3U8VideoLines ci.duration)
    ∧ ∀ a ∈ ci.audioStreams,
        (∀ n, audioSegmentName a.index n =
            expandSegmentTemplate ("audio_" ++ jsNatToString a.index ++ "_%03d.ts") n)
        ∧ pathJoin outputDir ("audio_" ++ jsNatToString a.index ++ "_%03d.ts") ∈
            audioArgs a outputDir
        ∧ (audioArgs a outputDir).getLast? =
            some (pathJoin outputDir (audioPlaylistName a.index))
        ∧ (∀ i, i < numberOfSegments ci.duration →
            audioSegmentName a.index i ∈
              generatePreGeneratedM3U8AudioLines a.index ci.duration) := by
  refine ⟨?_, ?_, ?_, ?_, ?_⟩
  · intro n
    apply string_eq_of_data_eq
    show ("segment_" ++ padStart (jsNatToString n) 3 '0' ++ ".ts").data =
      (String.mk (subst03 n ("segment_%03d.ts".data))).data
    rw [padStart_eq_fmt03, subst03_video_template, String.data_append, String.data_append]
    exact List.append_assoc _ _ _
  · unfold hlsArgs videoCodecArgs
    split <;> simp
  · unfold hlsArgs videoCodecArgs
    split <;> rfl
  · intro i hi
    unfold generatePreGeneratedM3U8VideoLines
    refine List.mem_append.mpr (Or.inl (List.mem_append.mpr (Or.inr ?_)))
    exact List.mem_flatMap.mpr ⟨i, List.mem_range.mpr hi, by simp⟩
  · intro a _
    refine ⟨?_, ?_, ?_, ?_⟩
    · intro n
      apply string_eq_of_data_eq
      show ("audio_" ++ jsNatToString a.index ++ "_" ++ padStart (jsNatToString n) 3 '0'
          ++ ".ts").data =
        (String.mk (subst03 n (("audio_" ++ jsNatToString a.index ++ "_%03d.ts").data))).data
      rw [padStart_eq_fmt03]
      show ("audio_" ++ jsNatToString a.index ++ "_" ++ fmt03 n ++ ".ts").data =
        subst03 n (("audio_" ++ jsNatToString a.index ++ "_%03d.ts").data)
      have hlit : ∀ c ∈ ("audio_" : String).data, c ≠ '%' := by decide
      have hno : ∀ c ∈ "audio_".data ++ (jsNatToString a.index).data, c ≠ '%' := by
        intro c hc
        rcases List.mem_append.mp hc with h' | h'
        · exact hlit c h'
        · exact jsNatToString_no_pct a.index c h'
      have hsplit : ("audio_" ++ jsNatToString a.index ++ "_%03d.ts").data =
          ("audio_".data ++ (jsNatToString a.index).data) ++ "_%03d.ts".data := by
        rw [String.data_append, String.data_append]
      rw [hsplit, subst03_append_no_pct n _ _ hno, subst03_audio_tail]
      simp [String.data_append]
    · unfold audioArgs
      split <;> simp
    · unfold audioArgs
      split <;> rfl
    · intro i hi
      unfold generatePreGeneratedM3U8AudioLines
      refine List.mem_append.mpr (Or.inl (List.mem_append.mpr (Or.inr ?_)))
      exact List.mem_flatMap.mpr ⟨i, List.mem_range.mpr hi, by simp⟩

/-- Witness for C3 at one audio track and the first four segment numbers. -/
theorem c3_planner_encoder_names_witness :
    ({ index := 0, name := "1", language := "unknown", default := true,
       codec := "aac" } : AudioStreamInfo) ∈
        ({ videoCodec := some "h264", pixFmt := none, subtitles := [],
           audioStreams := [{ index := 0, name := "1", language := "unknown",
                              default := true, codec := "aac" }],
           duration := 25 } : CodecInfo).audioStreams
    ∧ (∀ n, videoSegmentName n = expandSegmentTemplate "segment_%03d.ts" n)
    ∧ videoSegmentName 4 = "segment_004.ts" :=
  ⟨by decide,
    (c3_planner_encoder_names
      { videoCodec := some "h264", pixFmt := none, subtitles := [],
        audioStreams := [{ index := 0, name := "1", language := "unknown",
                           default := true, codec := "aac" }],
        duration := 25 } "/out" "").1,
    by decide⟩

/-! ### C1: the readiness gate of the HLS GET branch -/

/-- A successful wait returns a tick at or after the start at which the
polled path exists. -/
theorem waitExists_some (σ : Nat → FileSystem) (p : String) :
    ∀ fuel t0 t, waitExists σ p t0 fuel = some t →
      t0 ≤ t ∧ fileExists (σ t) p = true := by
  intro fuel
  induction fuel with
  | zero => intro t0 t h; simp [waitExists] at h
  | succ m ih =>
    intro t0 t h
    unfold waitExists at h
    by_cases hex : fileExists (σ t0) p = true
    · rw [if_pos hex] at h
      cases h
      exact ⟨Nat.le_refl t0, hex⟩
    · rw [if_neg hex] at h
      obtain ⟨hle, hfe⟩ := ih (t0 + 1) t h
      exact ⟨Nat.le_of_succ_le hle, hfe⟩

/-- A wait on a path that never exists yields nothing for any fuel. -/
theorem waitExists_none (σ : Nat → FileSystem) (p : String)
    (hnever : ∀ t, fileExists (σ t) p = false) :
    ∀ fuel t0, waitExists σ p t0 fuel = none := by
  intro fuel
  induction fuel with
  | zero => intro t0; rfl
  | succ m ih =>
    intro t0
    unfold waitExists
    rw [if_neg (by rw [hnever t0]; exact Bool.false_ne_true), ih (t0 + 1)]

/-- A wait on a path existing at the start returns immediately. -/
theorem waitExists_now (σ : Nat → FileSystem) (p : String) (t0 fuel : Nat)
    (hex : fileExists (σ t0) p = true) :
    waitExists σ p t0 (fuel + 1) = some t0 := by
  unfold waitExists
  rw [if_pos hex]

/-- Claim C1: the HLS-mode GET branch of play never answers before both the
master playlist and the fifth video segment exist in the session output
directory; whenever it answers, the response is a 200 whose body is the
content of the master playlist at the tick it was read, and once both files
exist the branch does answer exactly that response. -/
theorem c1_hls_readiness_gate (σ : Nat → FileSystem) (outputDir : String)
    (t0 fuel : Nat) :
    (∀ r, playHlsGet σ outputDir t0 fuel = some r →
      ∃ t1 t2, t0 ≤ t1 ∧ t1 ≤ t2
        ∧ fileExists (σ t1) (pathJoin outputDir "master.m3u8") = true
        ∧ fileExists (σ t2) (pathJoin outputDir "segment_004.ts") = true
        ∧ r.status = 200
        ∧ r.body = readFileOpt (σ t2) (pathJoin outputDir "master.m3u8"))
    ∧ (fileExists (σ t0) (pathJoin outputDir "master.m3u8") = true →
       fileExists (σ t0) (pathJoin outputDir "segment_004.ts") = true →
       playHlsGet σ outputDir t0 (fuel + 1) =
         some { status := 200, contentType := "application/vnd.apple.mpegurl",
                body := readFileOpt (σ t0) (pathJoin outputDir "master.m3u8") }) := by
  constructor
  · intro r h
    unfold playHlsGet at h
    cases h1 : waitExists σ (pathJoin outputDir "master.m3u8") t0 fuel with
    | none => simp [h1] at h
    | some t1 =>
      simp only [h1] at h
      cases h2 : waitExists σ (pathJoin outputDir "segment_004.ts") t1 fuel with
      | none => simp [h2] at h
      | some t2 =>
        simp only [h2, Option.some.injEq] at h
        obtain ⟨hle1, hex1⟩ := waitExists_some σ _ fuel t0 t1 h1
        obtain ⟨hle2, hex2⟩ := waitExists_some σ _ fuel t1 t2 h2
        exact ⟨t1, t2, hle1, hle2, hex1, hex2, by rw [← h], by rw [← h]⟩
  · intro hm hs
    unfold playHlsGet
    simp only [waitExists_now σ _ t0 fuel hm, waitExists_now σ _ t0 fuel hs]

/-- Witness for C1 at a filesystem trace where both files exist from the
first tick onward. -/
theorem c1_hls_readiness_gate_witness :
    (fileExists
        { dirs := ["/data/hls/h/0"],
          files := [("/data/hls/h/0/master.m3u8", "#EXTM3U"),
                    ("/data/hls/h/0/segment_004.ts", "seg")] }
        (pathJoin "/data/hls/h/0" "master.m3u8") = true)
    ∧ (fileExists
        { dirs := ["/data/hls/h/0"],
          files := [("/data/hls/h/0/master.m3u8", "#EXTM3U"),
                    ("/data/hls/h/0/segment_004.ts", "seg")] }
        (pathJoin "/data/hls/h/0" "segment_004.ts") = true)
    ∧ playHlsGet
        (fun _ =>
          { dirs := ["/data/hls/h/0"],
            files := [("/data/hls/h/0/master.m3u8", "#EXTM3U"),
                      ("/data/hls/h/0/segment_004.ts", "seg")] })
        "/data/hls/h/0" 0 1 =
        some { status := 200, contentType := "application/vnd.apple.mpegurl",
               body := readFileOpt
                 { dirs := ["/data/hls/h/0"],
                   files := [("/data/hls/h/0/master.m3u8", "#EXTM3U"),
                             ("/data/hls/h/0/segment_004.ts", "seg")] }
                 (pathJoin "/data/hls/h/0" "master.m3u8") } :=
  ⟨by decide, by decide,
    (c1_hls_readiness_gate
      (fun _ =>
        { dirs := ["/data/hls/h/0"],
          files := [("/data/hls/h/0/master.m3u8", "#EXTM3U"),
                    ("/data/hls/h/0/segment_004.ts", "seg")] })
      "/data/hls/h/0" 0 0).2 (by decide) (by decide)⟩

/-! ### C9: a probe failure orphans the session directory -/

/-- Claim C9: on the first HLS request for a key, the output directory is
created before the codec probe runs, so a probe rejection leaves the
directory in place with no file written, the error propagates to the caller,
no error path removes the directory, every subsequent request for the key
skips re-initialization without writing anything, and its readiness polling
never terminates because no writer of the master playlist remains. -/
theorem c9_probe_failure_orphans_session (fs : FileSystem) (outputDir e : String)
    (hdir : dirExists fs outputDir = false)
    (hmaster : fileExists fs (pathJoin outputDir "master.m3u8") = false) :
    dirExists (hlsSessionInit fs outputDir (Except.error e)).1 outputDir = true
    ∧ (hlsSessionInit fs outputDir (Except.error e)).1.files = fs.files
    ∧ (hlsSessionInit fs outputDir (Except.error e)).2 = some e
    ∧ (∀ probe2, hlsSessionInit (hlsSessionInit fs outputDir (Except.error e)).1
        outputDir probe2 = ((hlsSessionInit fs outputDir (Except.error e)).1, none))
    ∧ (∀ fuel t0, playHlsGet (fun _ => (hlsSessionInit fs outputDir (Except.error e)).1)
        outputDir t0 fuel = none) := by
  have hfalse : ¬ dirExists fs outputDir = true := by
    rw [hdir]; exact Bool.false_ne_true
  have hinit : hlsSessionInit fs outputDir (Except.error e) =
      (mkdirRecFS fs outputDir, some e) := by
    unfold hlsSessionInit
    rw [if_neg hfalse]
  rw [hinit]
  have hdir1 : dirExists (mkdirRecFS fs outputDir) outputDir = true := by
    simp [dirExists, mkdirRecFS]
  refine ⟨hdir1, rfl, rfl, ?_, ?_⟩
  · intro probe2
    unfold hlsSessionInit
    rw [if_pos hdir1]
  · intro fuel t0
    have hnever : ∀ t : Nat,
        fileExists ((fun _ => mkdirRecFS fs outputDir) t)
          (pathJoin outputDir "master.m3u8") = false := by
      intro _
      exact hmaster
    unfold playHlsGet
    rw [waitExists_none _ _ hnever fuel t0]

/-- Witness for C9: a failing probe on a fresh key leaves an empty session
directory that every later poll of the master playlist spins on. -/
theorem c9_probe_failure_orphans_session_witness :
    (dirExists { dirs := [], files := [] } "/data/hls/h/0" = false)
    ∧ (fileExists { dirs := [], files := [] }
        (pathJoin "/data/hls/h/0" "master.m3u8") = false)
    ∧ dirExists
        (hlsSessionInit { dirs := [], files := [] } "/data/hls/h/0"
          (Except.error "ffprobe exited with error")).1 "/data/hls/h/0" = true
    ∧ (hlsSessionInit { dirs := [], files := [] } "/data/hls/h/0"
        (Except.error "ffprobe exited with error")).2 =
          some "ffprobe exited with error"
    ∧ playHlsGet
        (fun _ => (hlsSessionInit { dirs := [], files := [] } "/data/hls/h/0"
          (Except.error "ffprobe exited with error")).1) "/data/hls/h/0" 0 50 = none := by
  have h := c9_probe_failure_orphans_session { dirs := [], files := [] }
    "/data/hls/h/0" "ffprobe exited with error" (by decide) (by decide)
  exact ⟨by decide, by decide, h.1, h.2.2.1, h.2.2.2.2 50 0⟩

end StreamCtrl
